import Mathlib

/-!
Verification of the `vk_bot` HTTP relay (files `config.py`, `vk_api.py`,
`vk_client.py`).  The application (`main.py`) serves its endpoints from the
`vk_api` module; `vk_client.py` is an alternate implementation of the same
facade and is modelled here only where a claim refers to it
(`_build_attachment`).

The embedding is a shallow one: every outbound HTTP interaction is answered
by an oracle (`Env`), each operation is a pure function from that oracle to
an `Except`-style result paired with the trace of outbound calls it issued,
and Python exceptions become constructors of `Err`:

* `Err.config`  — `config.ConfigError`
* `Err.api`     — `vk_api.VkApiError`
* `Err.crash`   — any other Python exception (e.g. a `TypeError` raised by
  the HTTP library when handed a non-string URL); no modelled value of this
  service reaches those branches, but keeping them distinct keeps the
  translation honest.
-/

set_option maxHeartbeats 1000000

/-- A JSON value as decoded by `response.json()`.  Numbers in every payload
this service handles are integers, so `num` carries an `Int`.  Objects are
association lists; the decoder of the source keeps keys unique. -/
inductive JVal where
  | null
  | bool (b : Bool)
  | num (n : Int)
  | str (s : String)
  | arr (xs : List JVal)
  | obj (kvs : List (String × JVal))
  deriving Repr

/-- Lookup of a key in a decoded JSON object, `none` on any non-object.  The
source functions annotate these values `Dict[str, Any]`; a non-object value
is treated as an object without keys. -/
def JVal.get : JVal → String → Option JVal
  | .obj kvs, k => kvs.lookup k
  | _, _ => none

/-- Python truthiness of a decoded JSON value. -/
def JVal.truthy : JVal → Bool
  | .null => false
  | .bool b => b
  | .num n => n != 0
  | .str s => s != ""
  | .arr xs => !xs.isEmpty
  | .obj kvs => !kvs.isEmpty

/-- Python truthiness of `dict.get(key)` (`None` when the key is absent). -/
def optTruthy : Option JVal → Bool
  | none => false
  | some v => v.truthy

/-- Python `x is None` for the result of `dict.get(key)`: true when the key
is absent or its value is JSON `null`. -/
def optIsNone : Option JVal → Bool
  | none => true
  | some .null => true
  | some _ => false

/-- Python `x or y` on two `dict.get` results. -/
def pyOr (a b : Option JVal) : Option JVal :=
  if optTruthy a then a else b

/-- Rendering of a JSON value the way a Python f-string renders the
corresponding object.  Containers are rendered by Python via `repr`; no
value this service interpolates is a container, so a fixed marker stands in
for that case. -/
def JVal.pyStr : JVal → String
  | .null => "None"
  | .bool true => "True"
  | .bool false => "False"
  | .num n => toString n
  | .str s => s
  | .arr _ => "<container>"
  | .obj _ => "<container>"

/-- Conversion of a run of decimal digit characters to the number they
denote. -/
def digitsVal (l : List Char) : Nat :=
  l.foldl (fun acc c => 10 * acc + (c.toNat - 48)) 0

/-- Python `int(s)` on an already-stripped string: an optional sign followed
by a non-empty run of digits.  (CPython additionally accepts underscore
separators between digits and non-ASCII digits; no configured value of this
service uses either.) -/
def pyInt (s : String) : Option Int :=
  match s.data with
  | [] => none
  | '+' :: rest =>
      if rest ≠ [] ∧ rest.all Char.isDigit then some (digitsVal rest) else none
  | '-' :: rest =>
      if rest ≠ [] ∧ rest.all Char.isDigit then some (-(digitsVal rest : Int)) else none
  | l =>
      if l.all Char.isDigit then some (digitsVal l) else none

/-- Auxiliary scan for `substrOf` over the character list of the haystack. -/
def infixAux (needle : List Char) : List Char → Bool
  | [] => needle.isEmpty
  | c :: rest => needle.isPrefixOf (c :: rest) || infixAux needle rest

/-- Python `needle in hay` on strings. -/
def substrOf (needle hay : String) : Bool :=
  infixAux needle.data hay.data

/-- Python `sep.join(parts)`. -/
def joinParts (sep : String) : List String → String
  | [] => ""
  | [x] => x
  | x :: y :: rest => x ++ sep ++ joinParts sep (y :: rest)

/-- Characters of `l` with leading and trailing whitespace removed. -/
def trimChars (l : List Char) : List Char :=
  ((l.dropWhile Char.isWhitespace).reverse.dropWhile Char.isWhitespace).reverse

/-- Python `s.strip()`. -/
def pyStrip (s : String) : String := String.mk (trimChars s.data)

/-- Python `s.lower()` restricted to ASCII case folding, which covers every
content type and error message this service compares. -/
def pyLower (s : String) : String := String.mk (s.data.map Char.toLower)

/-- Python `s.startswith(pre)`. -/
def pyStartsWith (s pre : String) : Bool := pre.data.isPrefixOf s.data

/-- Split of a character list at every character satisfying `p`, keeping
empty segments. -/
def splitPred (p : Char → Bool) : List Char → List (List Char)
  | [] => [[]]
  | a :: rest =>
      match splitPred p rest with
      | [] => [[a]]
      | x :: xs => if p a then [] :: x :: xs else (a :: x) :: xs

/-- Python `" ".join(text.split())`: whitespace runs collapsed to single
spaces, outer whitespace dropped. -/
def collapseWs (s : String) : String :=
  joinParts " "
    (((splitPred Char.isWhitespace s.data).map String.mk).filter (fun w => w ≠ ""))

/-- Error kinds of the program: `config` models `ConfigError`, `api` models
`VkApiError`, and `crash` models any other Python exception escaping a
branch the source never exercises. -/
inductive Err where
  | config (msg : String)
  | api (msg : String)
  | crash (msg : String)
  deriving Repr, DecidableEq

/-- An HTTP response as the source observes it: status code, the
`Content-Type` header if present, `response.text` (`none` models a decoding
failure), the result of `response.json()` (`none` when the body is not valid
JSON), and the raw `response.content` bytes. -/
structure HttpResp where
  status : Nat
  contentType : Option String
  text : Option String
  json : Option JVal
  content : List Nat
  deriving Repr

/-- Outcome of one transport attempt: a network-level error
(`httpx.RequestError`) or a response. -/
inductive Transport where
  | netErr
  | ok (r : HttpResp)

/-- One outbound call as recorded in a trace. -/
inductive Call where
  | get (url : String)
  | vk (method : String) (payload : List (String × JVal))
  | upload (url field filename : String) (bytes : List Nat) (contentType : String)
  deriving Repr

/-- Oracle answering the three kinds of outbound HTTP interaction the
source performs. -/
structure Env where
  download : String → Transport
  vk : String → List (String × JVal) → Transport
  upload : String → String → String → List Nat → String → Transport

/-- Result of a modelled operation: an `Except`-style outcome paired with
the trace of outbound calls issued, in order. -/
abbrev R (α : Type) := Except Err α × List Call

/-- Sequencing of two traced steps; the second runs only if the first
succeeded, and traces concatenate. -/
def rbind {α β : Type} (x : R α) (f : α → R β) : R β :=
  match x with
  | (.error e, t) => (.error e, t)
  | (.ok a, t) =>
      match f a with
      | (r, t2) => (r, t ++ t2)

@[simp] theorem rbind_error {α β : Type} (e : Err) (t : List Call) (f : α → R β) :
    rbind (.error e, t) f = (.error e, t) := rfl

@[simp] theorem rbind_ok {α β : Type} (a : α) (t : List Call) (f : α → R β) :
    rbind (.ok a, t) f = ((f a).1, t ++ (f a).2) := rfl

/-- The configuration bundle (`config.Settings`); the request timeout is
omitted because it only parameterises the transport, which the oracle
absorbs. -/
structure Settings where
  internal_token : String
  vk_access_token : String
  vk_peer_id : String
  vk_api_version : String
  vk_group_id : Option String
  vk_api_url : String

namespace VkApi

/-- Body snippet of `vk_api._summarize_response` (lines 23-25): whitespace
collapsed, then cut to the first 200 characters with an ellipsis when
longer. -/
def snippet_of (text : String) : String :=
  let snippet := collapseWs text
  if snippet.length > 200 then String.mk (snippet.data.take 200) ++ "..." else snippet

/-- Translation of `vk_api._summarize_response` (lines 15-27): status,
content-type, and a whitespace-collapsed body snippet capped at 200
characters. -/
def summarize_response (r : HttpResp) : String :=
  let contentType := r.contentType.getD "unknown"
  let parts := ["HTTP " ++ toString r.status, "content-type " ++ contentType]
  let text := match r.text with
    | some t => pyStrip t
    | none => ""
  let parts :=
    if text ≠ "" then parts ++ ["body: " ++ snippet_of text]
    else parts
  joinParts ", " parts

/-- Python `s.rsplit("/", 1)[0]`: everything before the last slash, or the
whole string when it has none. -/
def rsplitBase (s : String) : String :=
  match (s.data.reverse).findIdx? (fun c => c = '/') with
  | none => s
  | some i => String.mk (s.data.take (s.data.length - 1 - i))

/-- Translation of `vk_api._method_url` (lines 30-32). -/
def method_url (st : Settings) (method : String) : String :=
  rsplitBase st.vk_api_url ++ "/" ++ method

/-- Translation of `vk_api._raise_if_vk_error` (lines 35-40): when the
envelope has an `error` key, the message is its `error_msg` field (default
`"VK API error"`), prefixed with the method name when one is given.  A
non-object `error` value would make the source crash with an
`AttributeError` at `data["error"].get`. -/
def raise_if_vk_error (data : JVal) (method : Option String) : Option Err :=
  match data.get "error" with
  | none => none
  | some (.obj ekvs) =>
      let message := match (ekvs.lookup "error_msg") with
        | some v => v.pyStr
        | none => "VK API error"
      let message := match method with
        | some m => m ++ ": " ++ message
        | none => message
      some (.api message)
  | some _ => some (.crash "error field is not an object")

/-- Translation of `vk_api._extract_response` (lines 43-47). -/
def extract_response (data : JVal) : Except Err JVal :=
  match raise_if_vk_error data none with
  | some e => .error e
  | none =>
      match data.get "response" with
      | some v => .ok v
      | none => .error (.api "Invalid response from VK API")

/-- Translation of `vk_api._get_group_id` (lines 50-57): reject an unset or
empty value, then parse the stripped string as an integer and take its
absolute value; a failed parse is a `ConfigError`. -/
def get_group_id (st : Settings) : Except Err Int :=
  match st.vk_group_id with
  | none => .error (.config "VK_GROUP_ID is not set")
  | some gid =>
      if gid = "" then .error (.config "VK_GROUP_ID is not set")
      else
        match pyInt (pyStrip gid) with
        | none => .error (.config "VK_GROUP_ID must be an integer")
        | some n => .ok (n.natAbs : Int)

/-- Translation of `vk_api._get_group_owner_id` (lines 60-61). -/
def get_group_owner_id (st : Settings) : Except Err Int :=
  match get_group_id st with
  | .error e => .error e
  | .ok g => .ok (-g)

/-- Credential injection of `vk_api._post_vk_method` (lines 70-74): the
payload is `access_token` and `v` followed by the method's own data. -/
def vk_payload (st : Settings) (data : List (String × JVal)) : List (String × JVal) :=
  ("access_token", JVal.str st.vk_access_token) ::
    ("v", JVal.str st.vk_api_version) :: data

/-- Translation of `vk_api._post_vk_method` (lines 64-92): POST the payload,
turn a network failure, an HTTP status of 400 or more, a non-JSON body, or a
platform-reported error into a `VkApiError`, and return the decoded envelope
otherwise. -/
def post_vk_method (env : Env) (st : Settings) (method : String)
    (data : List (String × JVal)) : R JVal :=
  let payload := vk_payload st data
  let t := [Call.vk method payload]
  match env.vk (method_url st method) payload with
  | .netErr => (.error (.api "Failed to reach VK API"), t)
  | .ok r =>
      if 400 ≤ r.status then
        (.error (.api ("VK API HTTP error (" ++ summarize_response r ++ ")")), t)
      else
        match r.json with
        | none =>
            (.error (.api ("Invalid response from VK API (" ++ summarize_response r ++ ")")), t)
        | some j =>
            match raise_if_vk_error j (some method) with
            | some e => (.error e, t)
            | none => (.ok j, t)

/-- The invoker idiom the orchestrators use: `_extract_response` applied to
the envelope returned by `_post_vk_method` (for example lines 127-133). -/
def invoke_method (env : Env) (st : Settings) (method : String)
    (data : List (String × JVal)) : R JVal :=
  match post_vk_method env st method data with
  | (.ok envelope, t) => (extract_response envelope, t)
  | (.error e, t) => (.error e, t)

/-- Translation of `vk_api.send_message` (lines 95-103). -/
def send_message (env : Env) (st : Settings) (message : String) : R JVal :=
  post_vk_method env st "messages.send"
    [("peer_id", JVal.str st.vk_peer_id), ("message", JVal.str message),
     ("random_id", JVal.num 0)]

/-- Scan for the first `"://"` occurrence in a character list, returning the
characters after it. -/
def afterSchemeSep : List Char → Option (List Char)
  | ':' :: '/' :: '/' :: rest => some rest
  | _ :: rest => afterSchemeSep rest
  | [] => none

/-- Path component of a URL, modelling `urllib.parse.urlparse(url).path` for
the http(s) URLs this service receives: drop the scheme and authority, stop
at the query or fragment. -/
def urlPath (url : String) : String :=
  let rest :=
    match afterSchemeSep url.data with
    | none => url.data
    | some tail => tail.dropWhile (fun c => c != '/')
  String.mk (rest.takeWhile (fun c => (c != '?') && (c != '#')))

/-- Last component of a path, modelling `pathlib.Path(p).name` for the plain
URL paths this service receives. -/
def pathName (p : String) : String :=
  ((((splitPred (fun a => a == '/') p.data)).map String.mk).filter
    (fun seg => seg != "")).getLastD ""

/-- Extension table modelling `mimetypes.guess_extension` for the content
types this relay sees; unknown types yield none. -/
def guess_extension (ct : String) : Option String :=
  if ct = "image/jpeg" then some ".jpg"
  else if ct = "image/png" then some ".png"
  else if ct = "image/gif" then some ".gif"
  else if ct = "image/webp" then some ".webp"
  else if ct = "video/mp4" then some ".mp4"
  else if ct = "video/webm" then some ".webm"
  else none

/-- Translation of `vk_api._filename_from_url` (lines 189-195). -/
def filename_from_url (url : String) (content_type : Option String) : String :=
  let name := match pathName (urlPath url) with
    | "" => "image"
    | n => n
  match content_type with
  | some ct =>
      if (!name.data.contains '.') && (ct != "") then
        match guess_extension
            (pyStrip (String.mk (ct.data.takeWhile (fun c => c != ';')))) with
        | some ext => name ++ ext
        | none => name
      else name
  | none => name

/-- Python `content_type or "application/octet-stream"` as used for every
multipart upload (lines 145, 279, 377, 445). -/
def ct_or_default (ct : Option String) : String :=
  match ct with
  | some c => if c = "" then "application/octet-stream" else c
  | none => "application/octet-stream"

/-- Content-type rejection test for images (line 212): a declared, non-empty
content type whose lowercasing does not start with `image/`. -/
def image_ct_bad (ct : Option String) : Bool :=
  match ct with
  | none => false
  | some c => (c != "") && !(pyStartsWith (pyLower c) "image/")

/-- Content-type rejection test for video (lines 238-244): a declared,
non-empty content type starting with neither `video/` nor
`application/octet-stream` after lowercasing. -/
def video_ct_bad (ct : Option String) : Bool :=
  match ct with
  | none => false
  | some c =>
      (c != "") &&
        !(pyStartsWith (pyLower c) "video/"
          || pyStartsWith (pyLower c) "application/octet-stream")

/-- Translation of `vk_api._download_image` (lines 198-222). -/
def download_image (env : Env) (image_url : String) :
    R (List Nat × Option String × String) :=
  let t := [Call.get image_url]
  match env.download image_url with
  | .netErr => (.error (.api "Failed to download image"), t)
  | .ok r =>
      if 400 ≤ r.status then
        (.error (.api ("Failed to download image (" ++ summarize_response r ++ ")")), t)
      else if image_ct_bad r.contentType then
        (.error (.api ("URL does not point to an image (content-type " ++
          r.contentType.getD "" ++ ")")), t)
      else if r.content.isEmpty then
        (.error (.api "Downloaded image is empty"), t)
      else
        (.ok (r.content, r.contentType, filename_from_url image_url r.contentType), t)

/-- Translation of `vk_api._download_video` (lines 225-254). -/
def download_video (env : Env) (video_url : String) :
    R (List Nat × Option String × String) :=
  let t := [Call.get video_url]
  match env.download video_url with
  | .netErr => (.error (.api "Failed to download video"), t)
  | .ok r =>
      if 400 ≤ r.status then
        (.error (.api ("Failed to download video (" ++ summarize_response r ++ ")")), t)
      else if video_ct_bad r.contentType then
        (.error (.api ("URL does not point to a video (content-type " ++
          r.contentType.getD "" ++ ")")), t)
      else if r.content.isEmpty then
        (.error (.api "Downloaded video is empty"), t)
      else
        (.ok (r.content, r.contentType, filename_from_url video_url r.contentType), t)

/-- Attachment composition as inlined at `vk_api.py` lines 182-186, 315-318,
392-395 and 475-478: kind, owner id and item id concatenated with
underscores, with the access key appended when truthy. -/
def mk_attachment (kind : String) (owner_id item_id : JVal)
    (access_key : Option JVal) : String :=
  let attachment := kind ++ owner_id.pyStr ++ "_" ++ item_id.pyStr
  if optTruthy access_key then
    attachment ++ "_" ++ (match access_key with | some v => v.pyStr | none => "")
  else attachment

/-- Shared shape of `upload_url = info.get("upload_url"); if not upload_url:
raise` (lines 134-136, 268-270, 366-368, 434-436).  A truthy non-string
value would make the HTTP library crash at the subsequent POST. -/
def url_value_of (info : JVal) : Except Err String :=
  match info.get "upload_url" with
  | none => .error (.api "Upload URL not received from VK API")
  | some u =>
      if u.truthy then
        match u with
        | .str s => .ok s
        | _ => .error (.crash "non-string upload URL")
      else .error (.api "Upload URL not received from VK API")

/-- Upload-URL extraction from a get-upload-server envelope:
`_extract_response` followed by the `upload_url` presence check. -/
def upload_url_of (upload_data : JVal) : Except Err String :=
  match extract_response upload_data with
  | .error e => .error e
  | .ok upload_info => url_value_of upload_info

/-- Photo multipart upload step (lines 138-159 and 272-293): POST the bytes
under the `photo` field, decode the JSON reply and require the `server`,
`photo` and `hash` keys. -/
def photo_upload_step (env : Env) (upload_url filename : String)
    (image_bytes : List Nat) (content_type : Option String) : R JVal :=
  let ct := ct_or_default content_type
  let t := [Call.upload upload_url "photo" filename image_bytes ct]
  match env.upload upload_url "photo" filename image_bytes ct with
  | .netErr => (.error (.api "Failed to upload image to VK"), t)
  | .ok ur =>
      match ur.json with
      | none => (.error (.api "Invalid upload response from VK API"), t)
      | some up =>
          if (up.get "server").isSome && (up.get "photo").isSome && (up.get "hash").isSome then
            (.ok up, t)
          else
            (.error (.api "Invalid upload response from VK API"), t)

/-- Photo save-response handling, identical at lines 172-186 (wall) and
305-318 (messages): require a truthy response, take its first element, fail
unless both `owner_id` and `id` are present, then compose the `photo…`
attachment.  Subscripting a truthy non-list would crash in the source. -/
def photo_from_save (save_data : JVal) : Except Err String :=
  match extract_response save_data with
  | .error e => .error e
  | .ok save_response =>
      if !save_response.truthy then .error (.api "Image was not saved by VK API")
      else
        match save_response with
        | .arr (photo_info :: _) =>
            let owner_id := photo_info.get "owner_id"
            let photo_id := photo_info.get "id"
            if optIsNone owner_id || optIsNone photo_id then
              .error (.api "Invalid photo data from VK API")
            else
              .ok (mk_attachment "photo"
                (match owner_id with | some v => v | none => JVal.null)
                (match photo_id with | some v => v | none => JVal.null)
                (photo_info.get "access_key"))
        | _ => .error (.crash "subscript of a non-list save response")

/-- Translation of `vk_api._upload_wall_photo` (lines 121-186). -/
def upload_wall_photo (env : Env) (st : Settings) (image_url : String) : R String :=
  rbind (download_image env image_url) (fun dl =>
    match get_group_id st with
    | .error e => (.error e, [])
    | .ok group_id =>
        rbind (post_vk_method env st "photos.getWallUploadServer"
            [("group_id", JVal.num group_id)]) (fun upload_data =>
          match upload_url_of upload_data with
          | .error e => (.error e, [])
          | .ok upload_url =>
              rbind (photo_upload_step env upload_url dl.2.2 dl.1 dl.2.1) (fun up =>
                rbind (post_vk_method env st "photos.saveWallPhoto"
                    [("group_id", JVal.num group_id),
                     ("server", (up.get "server").getD JVal.null),
                     ("photo", (up.get "photo").getD JVal.null),
                     ("hash", (up.get "hash").getD JVal.null)]) (fun save_data =>
                  (photo_from_save save_data, [])))))

/-- Translation of `vk_api.send_post` (lines 106-118): build the wall.post
data (resolving the group owner id first), optionally run the wall-photo
orchestrator to add an `attachments` parameter, then issue `wall.post`. -/
def send_post (env : Env) (st : Settings) (message : String)
    (image_url : Option String) : R JVal :=
  match get_group_owner_id st with
  | .error e => (.error e, [])
  | .ok owner_id =>
      let data := [("owner_id", JVal.num owner_id), ("from_group", JVal.num 1),
                   ("message", JVal.str message)]
      match image_url with
      | some url =>
          if url = "" then post_vk_method env st "wall.post" data
          else
            rbind (upload_wall_photo env st url) (fun att =>
              post_vk_method env st "wall.post"
                (data ++ [("attachments", JVal.str att)]))
      | none => post_vk_method env st "wall.post" data

/-- Translation of `vk_api.send_image_url` (lines 257-329). -/
def send_image_url (env : Env) (st : Settings) (image_url : String) : R JVal :=
  rbind (download_image env image_url) (fun dl =>
    rbind (post_vk_method env st "photos.getMessagesUploadServer"
        [("peer_id", JVal.str st.vk_peer_id)]) (fun upload_data =>
      match upload_url_of upload_data with
      | .error e => (.error e, [])
      | .ok upload_url =>
          rbind (photo_upload_step env upload_url dl.2.2 dl.1 dl.2.1) (fun up =>
            rbind (post_vk_method env st "photos.saveMessagesPhoto"
                [("server", (up.get "server").getD JVal.null),
                 ("photo", (up.get "photo").getD JVal.null),
                 ("hash", (up.get "hash").getD JVal.null)]) (fun save_data =>
              match photo_from_save save_data with
              | .error e => (.error e, [])
              | .ok attachment =>
                  post_vk_method env st "messages.send"
                    [("peer_id", JVal.str st.vk_peer_id),
                     ("attachment", JVal.str attachment),
                     ("random_id", JVal.num 0)]))))

/-- Identifier extraction from the `video.save` response (lines 387-395):
`owner_id` and `video_id or vid` must be non-`None`, then the `video…`
attachment is composed. -/
def video_from_save (save_response : JVal) : Except Err String :=
  let owner_id := save_response.get "owner_id"
  let video_id := pyOr (save_response.get "video_id") (save_response.get "vid")
  if optIsNone owner_id || optIsNone video_id then
    .error (.api "Invalid video data from VK API")
  else
    .ok (mk_attachment "video"
      (match owner_id with | some v => v | none => JVal.null)
      (match video_id with | some v => v | none => JVal.null)
      (save_response.get "access_key"))

/-- Video multipart upload step (lines 370-385): POST the bytes under the
`video_file` field; a network failure or a status of 400 or more fails the
step, and the reply body is otherwise ignored. -/
def video_upload_step (env : Env) (upload_url filename : String)
    (video_bytes : List Nat) (content_type : Option String) : R Unit :=
  let ct := ct_or_default content_type
  let t := [Call.upload upload_url "video_file" filename video_bytes ct]
  match env.upload upload_url "video_file" filename video_bytes ct with
  | .netErr => (.error (.api "Failed to upload video to VK"), t)
  | .ok ur =>
      if 400 ≤ ur.status then (.error (.api "Failed to upload video to VK"), t)
      else (.ok (), t)

/-- Translation of `vk_api._send_video_via_save` (lines 349-406). -/
def send_video_via_save (env : Env) (st : Settings) (video_bytes : List Nat)
    (content_type : Option String) (filename : String) : R JVal :=
  rbind (post_vk_method env st "video.save"
      [("name", JVal.str filename), ("is_private", JVal.num 1)]) (fun save_data =>
    match extract_response save_data with
    | .error e => (.error e, [])
    | .ok save_response =>
        match url_value_of save_response with
        | .error e => (.error e, [])
        | .ok upload_url =>
            rbind (video_upload_step env upload_url filename video_bytes content_type)
              (fun _ =>
                match video_from_save save_response with
                | .error e => (.error e, [])
                | .ok attachment =>
                    post_vk_method env st "messages.send"
                      [("peer_id", JVal.str st.vk_peer_id),
                       ("attachment", JVal.str attachment),
                       ("random_id", JVal.num 0)]))

/-- Translation of `vk_api._extract_doc_info` (lines 409-417).  The second
source branch (`type == "doc" and "doc" in response`) also requires the
`doc` key the first branch just found absent, so it can never fire, and a
doc-less object falls through the `isinstance(..., list)` test to the final
raise. -/
def extract_doc_info (save_response : JVal) : Except Err JVal :=
  match save_response with
  | .obj kvs =>
      match kvs.lookup "doc" with
      | some d => .ok d
      | none => .error (.api "Invalid document data from VK API")
  | .arr (x :: _) => .ok x
  | _ => .error (.api "Invalid document data from VK API")

/-- Identifier extraction from the extracted doc object (lines 470-478):
`owner_id` and `id or doc_id` must be non-`None`, then the `doc…`
attachment is composed. -/
def doc_attachment_of (doc_info : JVal) : Except Err String :=
  let owner_id := doc_info.get "owner_id"
  let doc_id := pyOr (doc_info.get "id") (doc_info.get "doc_id")
  if optIsNone owner_id || optIsNone doc_id then
    .error (.api "Invalid document data from VK API")
  else
    .ok (mk_attachment "doc"
      (match owner_id with | some v => v | none => JVal.null)
      (match doc_id with | some v => v | none => JVal.null)
      (doc_info.get "access_key"))

/-- Document multipart upload step (lines 438-459): POST the bytes under the
`file` field, decode the JSON reply and require a truthy `file` token. -/
def doc_upload_step (env : Env) (upload_url filename : String)
    (video_bytes : List Nat) (content_type : Option String) : R JVal :=
  let ct := ct_or_default content_type
  let t := [Call.upload upload_url "file" filename video_bytes ct]
  match env.upload upload_url "file" filename video_bytes ct with
  | .netErr => (.error (.api "Failed to upload video to VK"), t)
  | .ok ur =>
      match ur.json with
      | none => (.error (.api "Invalid upload response from VK API"), t)
      | some up =>
          match up.get "file" with
          | none => (.error (.api "Invalid upload response from VK API"), t)
          | some tok =>
              if tok.truthy then (.ok tok, t)
              else (.error (.api "Invalid upload response from VK API"), t)

/-- Translation of `vk_api._send_video_as_document` (lines 420-489). -/
def send_video_as_document (env : Env) (st : Settings) (video_bytes : List Nat)
    (content_type : Option String) (filename : String) : R JVal :=
  rbind (post_vk_method env st "docs.getMessagesUploadServer"
      [("peer_id", JVal.str st.vk_peer_id), ("type", JVal.str "doc")]) (fun upload_data =>
    match upload_url_of upload_data with
    | .error e => (.error e, [])
    | .ok upload_url =>
        rbind (doc_upload_step env upload_url filename video_bytes content_type)
          (fun file_token =>
            rbind (post_vk_method env st "docs.save"
                [("file", file_token), ("title", JVal.str filename)]) (fun save_data =>
              match extract_response save_data with
              | .error e => (.error e, [])
              | .ok save_response =>
                  match extract_doc_info save_response with
                  | .error e => (.error e, [])
                  | .ok doc_info =>
                      match doc_attachment_of doc_info with
                      | .error e => (.error e, [])
                      | .ok attachment =>
                          post_vk_method env st "messages.send"
                            [("peer_id", JVal.str st.vk_peer_id),
                             ("attachment", JVal.str attachment),
                             ("random_id", JVal.num 0)])))

/-- Translation of `vk_api.send_video_url` (lines 332-346): download, try the
native video flow, and on a `VkApiError` whose lowercased message contains
`"group auth"` fall back to the document flow; any other failure
propagates. -/
def send_video_url (env : Env) (st : Settings) (video_url : String) : R JVal :=
  rbind (download_video env video_url) (fun dl =>
    match send_video_via_save env st dl.1 dl.2.1 dl.2.2 with
    | (.ok v, t) => (.ok v, t)
    | (.error e, t) =>
        match e with
        | .api msg =>
            if substrOf "group auth" (pyLower msg) then
              match send_video_as_document env st dl.1 dl.2.1 dl.2.2 with
              | (r2, t2) => (r2, t ++ t2)
            else (.error (.api msg), t)
        | _ => (.error e, t))

end VkApi

namespace VkClient

/-- Translation of `vk_client._build_attachment` (lines 152-158); the kind
tag is the source's first parameter, renamed because Lean reserves that
word. -/
def build_attachment (kind : String) (owner_id item_id : JVal)
    (access_key : Option JVal) : String :=
  let attachment := kind ++ owner_id.pyStr ++ "_" ++ item_id.pyStr
  if optTruthy access_key then
    attachment ++ "_" ++ (match access_key with | some v => v.pyStr | none => "")
  else attachment

end VkClient

/-! ## Helper lemmas about the embedding -/

theorem isPrefixOf_append_self (l t : List Char) : l.isPrefixOf (l ++ t) = true := by
  induction l with
  | nil => simp [List.isPrefixOf]
  | cons a as ih => simp [List.isPrefixOf, ih]

theorem infixAux_of_prefix (needle hay : List Char) (h : needle.isPrefixOf hay = true) :
    infixAux needle hay = true := by
  cases hay with
  | nil =>
      cases needle with
      | nil => rfl
      | cons a as => simp [List.isPrefixOf] at h
  | cons c rest => simp [infixAux, h]

theorem substr_append_right (a b : String) : substrOf a (a ++ b) = true := by
  unfold substrOf
  rw [String.data_append]
  exact infixAux_of_prefix _ _ (isPrefixOf_append_self _ _)

theorem snippet_of_length_le (text : String) : (VkApi.snippet_of text).length ≤ 203 := by
  simp only [VkApi.snippet_of]
  by_cases h : (collapseWs text).length > 200
  · rw [if_pos h]
    have h1 : (String.mk ((collapseWs text).data.take 200)).length ≤ 200 := by
      show ((collapseWs text).data.take 200).length ≤ 200
      simp [List.length_take]
    have h2 : ("..." : String).length = 3 := rfl
    rw [String.length_append]
    omega
  · rw [if_neg h]
    omega

theorem post_vk_method_trace (env : Env) (st : Settings) (method : String)
    (data : List (String × JVal)) :
    (VkApi.post_vk_method env st method data).2
      = [Call.vk method (VkApi.vk_payload st data)] := by
  simp only [VkApi.post_vk_method]
  repeat' split
  all_goals rfl

theorem download_image_trace (env : Env) (url : String) :
    (VkApi.download_image env url).2 = [Call.get url] := by
  simp only [VkApi.download_image]
  repeat' split
  all_goals rfl

theorem download_video_trace (env : Env) (url : String) :
    (VkApi.download_video env url).2 = [Call.get url] := by
  simp only [VkApi.download_video]
  repeat' split
  all_goals rfl

theorem photo_upload_step_trace (env : Env) (u fn : String) (b : List Nat)
    (ct : Option String) :
    (VkApi.photo_upload_step env u fn b ct).2
      = [Call.upload u "photo" fn b (VkApi.ct_or_default ct)] := by
  simp only [VkApi.photo_upload_step]
  repeat' split
  all_goals rfl

theorem video_upload_step_trace (env : Env) (u fn : String) (b : List Nat)
    (ct : Option String) :
    (VkApi.video_upload_step env u fn b ct).2
      = [Call.upload u "video_file" fn b (VkApi.ct_or_default ct)] := by
  simp only [VkApi.video_upload_step]
  repeat' split
  all_goals rfl

theorem doc_upload_step_trace (env : Env) (u fn : String) (b : List Nat)
    (ct : Option String) :
    (VkApi.doc_upload_step env u fn b ct).2
      = [Call.upload u "file" fn b (VkApi.ct_or_default ct)] := by
  simp only [VkApi.doc_upload_step]
  repeat' split
  all_goals rfl

/-- Test whether a call is one of the two outward send methods
(`messages.send` or `wall.post`). -/
def sendLike : Call → Bool
  | .vk m _ => (m == "messages.send") || (m == "wall.post")
  | _ => false

theorem rbind_all {α β : Type} (x : R α) (f : α → R β) (p : Call → Bool)
    (hx : x.2.all p = true) (hf : ∀ a, ((f a).2).all p = true) :
    ((rbind x f).2).all p = true := by
  rcases x with ⟨r, t⟩
  cases r with
  | error e => exact hx
  | ok a => simp [rbind, List.all_append, hx, hf a]

theorem upload_wall_photo_noSend (env : Env) (st : Settings) (url : String) :
    ((VkApi.upload_wall_photo env st url).2).all (fun c => !sendLike c) = true := by
  unfold VkApi.upload_wall_photo
  apply rbind_all
  · rw [download_image_trace]; rfl
  · intro dl
    cases VkApi.get_group_id st with
    | error e => rfl
    | ok gid =>
        apply rbind_all
        · rw [post_vk_method_trace]; rfl
        · intro upload_data
          cases VkApi.upload_url_of upload_data with
          | error e => rfl
          | ok uurl =>
              apply rbind_all
              · rw [photo_upload_step_trace]; rfl
              · intro up
                apply rbind_all
                · rw [post_vk_method_trace]; rfl
                · intro save_data; rfl

theorem mem_rbind {α β : Type} {x : R α} {f : α → R β} {c : Call}
    (h : c ∈ (rbind x f).2) : c ∈ x.2 ∨ ∃ a, x.1 = .ok a ∧ c ∈ (f a).2 := by
  rcases x with ⟨r, t⟩
  cases r with
  | error e => exact .inl h
  | ok a =>
      simp only [rbind_ok] at h
      rcases List.mem_append.mp h with h1 | h2
      · exact .inl h1
      · exact .inr ⟨a, rfl, h2⟩

theorem mem_post_trace {env : Env} {st : Settings} {m : String}
    {d : List (String × JVal)} {c : Call}
    (h : c ∈ (VkApi.post_vk_method env st m d).2) :
    c = Call.vk m (VkApi.vk_payload st d) := by
  rw [post_vk_method_trace] at h
  exact List.mem_singleton.mp h

theorem vk_ne_of_method {m m2 : String} {p q : List (String × JVal)}
    (hm : m ≠ m2) : Call.vk m p ≠ Call.vk m2 q := by
  intro h
  injection h with h1 _
  exact hm h1

theorem mk_attachment_shape (kind : String) (o i : JVal) (k : Option JVal) :
    ∃ rest, VkApi.mk_attachment kind o i k = kind ++ rest := by
  simp only [VkApi.mk_attachment]
  cases k with
  | none =>
      refine ⟨o.pyStr ++ "_" ++ i.pyStr, ?_⟩
      simp [optTruthy, String.append_assoc]
  | some v =>
      by_cases hv : v.truthy = true
      · refine ⟨o.pyStr ++ "_" ++ i.pyStr ++ "_" ++ v.pyStr, ?_⟩
        simp [optTruthy, hv, String.append_assoc]
      · refine ⟨o.pyStr ++ "_" ++ i.pyStr, ?_⟩
        simp [optTruthy, hv, String.append_assoc]

theorem doc_prefix_ne_video (r1 r2 : String) : "doc" ++ r1 ≠ "video" ++ r2 := by
  intro h
  have h2 := congrArg String.data h
  rw [String.data_append, String.data_append] at h2
  have hd : ("doc" : String).data = ['d', 'o', 'c'] := rfl
  have hv : ("video" : String).data = ['v', 'i', 'd', 'e', 'o'] := rfl
  rw [hd, hv] at h2
  simp at h2

theorem doc_send_attachment (env : Env) (st : Settings) (b : List Nat)
    (ct : Option String) (fn : String) (payload : List (String × JVal))
    (h : Call.vk "messages.send" payload ∈ (VkApi.send_video_as_document env st b ct fn).2) :
    ∃ a : String, payload.lookup "attachment" = some (JVal.str a)
      ∧ (∃ rest, a = "doc" ++ rest) ∧ ∀ rest2, a ≠ "video" ++ rest2 := by
  unfold VkApi.send_video_as_document at h
  rcases mem_rbind h with h1 | ⟨up1, _, h1⟩
  · exact absurd (mem_post_trace h1) (vk_ne_of_method (by decide))
  · cases hu : VkApi.upload_url_of up1 with
    | error e =>
        rw [hu] at h1
        exact absurd h1 (List.not_mem_nil _)
    | ok uurl =>
        rw [hu] at h1
        rcases mem_rbind h1 with h2 | ⟨tok, _, h2⟩
        · rw [doc_upload_step_trace] at h2
          exact Call.noConfusion (List.mem_singleton.mp h2)
        · rcases mem_rbind h2 with h3 | ⟨sd, _, h3⟩
          · exact absurd (mem_post_trace h3) (vk_ne_of_method (by decide))
          · cases hex : VkApi.extract_response sd with
            | error e => rw [hex] at h3; exact absurd h3 (List.not_mem_nil _)
            | ok sr =>
                rw [hex] at h3
                simp only [] at h3
                cases hdi : VkApi.extract_doc_info sr with
                | error e => rw [hdi] at h3; exact absurd h3 (List.not_mem_nil _)
                | ok dinfo =>
                    rw [hdi] at h3
                    simp only [] at h3
                    cases hda : VkApi.doc_attachment_of dinfo with
                    | error e => rw [hda] at h3; exact absurd h3 (List.not_mem_nil _)
                    | ok attachment =>
                        rw [hda] at h3
                        simp only [] at h3
                        have hshape : ∃ rest, attachment = "doc" ++ rest := by
                          simp only [VkApi.doc_attachment_of] at hda
                          split at hda
                          · exact Except.noConfusion hda
                          · injection hda with hv
                            rw [← hv]
                            exact mk_attachment_shape "doc" _ _ _
                        have hc := mem_post_trace h3
                        injection hc with _ hp
                        subst hp
                        refine ⟨attachment, ?_, hshape, ?_⟩
                        · simp [VkApi.vk_payload, List.lookup]
                        · intro rest2 hne
                          rcases hshape with ⟨rest, hr⟩
                          rw [hr] at hne
                          exact doc_prefix_ne_video rest rest2 hne

/-! ## Claim theorems -/

/-- C8: `AttachmentReference` composition is a deterministic function of
kind, owner id, item id and optional access key: `photo`/`123`/`456` with
key `"abc"` yields `"photo123_456_abc"`, without a key `"photo123_456"`, and
the rule inlined in the `vk_api` orchestrators agrees with
`vk_client._build_attachment` at every input. -/
theorem c8_build_attachment :
    VkClient.build_attachment "photo" (.num 123) (.num 456) (some (.str "abc"))
        = "photo123_456_abc"
    ∧ VkClient.build_attachment "photo" (.num 123) (.num 456) none = "photo123_456"
    ∧ ∀ (kind : String) (owner item : JVal) (key : Option JVal),
        VkApi.mk_attachment kind owner item key
          = VkClient.build_attachment kind owner item key :=
  ⟨rfl, rfl, fun _ _ _ _ => rfl⟩

/-- C9: every send-text call issues exactly one outbound `messages.send`
call whose parameters carry the caller's message text unmodified and a
`peer_id` equal to the configured peer id. -/
theorem c9_send_message_params (env : Env) (st : Settings) (message : String) :
    (VkApi.send_message env st message).2
      = [Call.vk "messages.send" (VkApi.vk_payload st
          [("peer_id", JVal.str st.vk_peer_id), ("message", JVal.str message),
           ("random_id", JVal.num 0)])]
    ∧ (VkApi.vk_payload st
        [("peer_id", JVal.str st.vk_peer_id), ("message", JVal.str message),
         ("random_id", JVal.num 0)]).lookup "message" = some (JVal.str message)
    ∧ (VkApi.vk_payload st
        [("peer_id", JVal.str st.vk_peer_id), ("message", JVal.str message),
         ("random_id", JVal.num 0)]).lookup "peer_id" = some (JVal.str st.vk_peer_id) := by
  refine ⟨post_vk_method_trace env st "messages.send" _, ?_, ?_⟩ <;>
    simp [VkApi.vk_payload, List.lookup]

/-- C6: group id resolution parses the configured string as an integer and
takes its absolute value (so the owner id is its negation), and an absent,
empty or non-integer value is a `ConfigError`, a kind distinct from
`VkApiError`. -/
theorem c6_group_id (st : Settings) (s : String) (n : Int)
    (hs : st.vk_group_id = some s) (hne : s ≠ "") (hp : pyInt (pyStrip s) = some n) :
    VkApi.get_group_id st = .ok (n.natAbs : Int)
    ∧ VkApi.get_group_owner_id st = .ok (-(n.natAbs : Int))
    ∧ (∀ st2 : Settings, st2.vk_group_id = none →
        VkApi.get_group_id st2 = .error (.config "VK_GROUP_ID is not set"))
    ∧ (∀ (st2 : Settings) (s2 : String), st2.vk_group_id = some s2 → s2 ≠ "" →
        pyInt (pyStrip s2) = none →
        VkApi.get_group_id st2 = .error (.config "VK_GROUP_ID must be an integer"))
    ∧ (∀ m1 m2 : String, Err.config m1 ≠ Err.api m2) := by
  have h1 : VkApi.get_group_id st = .ok (n.natAbs : Int) := by
    simp [VkApi.get_group_id, hs, hne, hp]
  refine ⟨h1, ?_, ?_, ?_, ?_⟩
  · simp [VkApi.get_group_owner_id, h1]
  · intro st2 h2
    simp [VkApi.get_group_id, h2]
  · intro st2 s2 h2 h3 h4
    simp [VkApi.get_group_id, h2, h3, h4]
  · intro m1 m2 h
    exact Err.noConfusion h

/-- C6 witness: the group id configured as `"-100"` resolves to group id
`100` and post owner id `-100`, the absolute value being taken before
negation. -/
theorem c6_group_id_witness :
    VkApi.get_group_id ⟨"tok", "at", "7", "5.199", some "-100", "u"⟩ = .ok 100
    ∧ VkApi.get_group_owner_id ⟨"tok", "at", "7", "5.199", some "-100", "u"⟩
        = .ok (-100) := by
  have h := c6_group_id ⟨"tok", "at", "7", "5.199", some "-100", "u"⟩ "-100" (-100)
    rfl (by decide) (by decide)
  exact ⟨h.1, h.2.1⟩

/-- C4: the document save-response extractor succeeds exactly on an object
carrying a `doc` key or a non-empty list, the three documented shapes all
yield the same doc object, an empty list is rejected, and every rejection
is the single `VkApiError` (RemoteError) value. -/
theorem c4_extract_doc_info :
    (∀ j d : JVal,
        VkApi.extract_doc_info j = .ok d ↔
          ((∃ kvs, j = JVal.obj kvs ∧ kvs.lookup "doc" = some d)
            ∨ (∃ rest, j = JVal.arr (d :: rest))))
    ∧ (∀ d : JVal,
        VkApi.extract_doc_info (JVal.obj [("doc", d)]) = .ok d
        ∧ VkApi.extract_doc_info (JVal.obj [("type", JVal.str "doc"), ("doc", d)]) = .ok d
        ∧ ∀ rest, VkApi.extract_doc_info (JVal.arr (d :: rest)) = .ok d)
    ∧ VkApi.extract_doc_info (JVal.arr [])
        = .error (.api "Invalid document data from VK API")
    ∧ (∀ j : JVal, (∃ d, VkApi.extract_doc_info j = .ok d)
        ∨ VkApi.extract_doc_info j
            = .error (.api "Invalid document data from VK API")) := by
  refine ⟨?_, ?_, rfl, ?_⟩
  · intro j d
    constructor
    · intro h
      cases j with
      | obj kvs =>
          cases hl : kvs.lookup "doc" with
          | none => simp [VkApi.extract_doc_info, hl] at h
          | some d2 =>
              simp [VkApi.extract_doc_info, hl] at h
              exact .inl ⟨kvs, rfl, by rw [hl, h]⟩
      | arr xs =>
          cases xs with
          | nil => simp [VkApi.extract_doc_info] at h
          | cons x rest =>
              simp [VkApi.extract_doc_info] at h
              exact .inr ⟨rest, by rw [h]⟩
      | null => simp [VkApi.extract_doc_info] at h
      | bool bb => simp [VkApi.extract_doc_info] at h
      | num nn => simp [VkApi.extract_doc_info] at h
      | str ss => simp [VkApi.extract_doc_info] at h
    · intro h
      rcases h with ⟨kvs, rfl, hl⟩ | ⟨rest, rfl⟩
      · simp [VkApi.extract_doc_info, hl]
      · simp [VkApi.extract_doc_info]
  · intro d
    exact ⟨rfl, rfl, fun rest => rfl⟩
  · intro j
    cases j with
    | obj kvs =>
        cases hl : kvs.lookup "doc" with
        | none => exact .inr (by simp [VkApi.extract_doc_info, hl])
        | some d2 => exact .inl ⟨d2, by simp [VkApi.extract_doc_info, hl]⟩
    | arr xs =>
        cases xs with
        | nil => exact .inr rfl
        | cons x rest => exact .inl ⟨x, rfl⟩
    | null => exact .inr rfl
    | bool bb => exact .inr rfl
    | num nn => exact .inr rfl
    | str ss => exact .inr rfl

/-- C10: when the response to a resource download carries no Content-Type
header, the prefix check is skipped — the fetch succeeds exactly on a status
below 400 with a non-empty body — and every later multipart upload step
declares `application/octet-stream` as the content type. -/
theorem c10_missing_content_type (env : Env) (url : String) (r : HttpResp)
    (hdl : env.download url = .ok r) (hct : r.contentType = none)
    (hst : r.status < 400) (hne : r.content ≠ []) :
    VkApi.download_image env url
      = (.ok (r.content, none, VkApi.filename_from_url url none), [Call.get url])
    ∧ VkApi.download_video env url
      = (.ok (r.content, none, VkApi.filename_from_url url none), [Call.get url])
    ∧ (∀ (u fn : String) (b : List Nat),
        (VkApi.photo_upload_step env u fn b none).2
          = [Call.upload u "photo" fn b "application/octet-stream"]
        ∧ (VkApi.doc_upload_step env u fn b none).2
          = [Call.upload u "file" fn b "application/octet-stream"]
        ∧ (VkApi.video_upload_step env u fn b none).2
          = [Call.upload u "video_file" fn b "application/octet-stream"]) := by
  have h400 : ¬ (400 ≤ r.status) := by omega
  have hemp : r.content.isEmpty = false := by
    cases hc : r.content with
    | nil => exact absurd hc hne
    | cons a l => rfl
  refine ⟨?_, ?_, ?_⟩
  · simp [VkApi.download_image, hdl, h400, hct, VkApi.image_ct_bad, hemp]
  · simp [VkApi.download_video, hdl, h400, hct, VkApi.video_ct_bad, hemp]
  · intro u fn b
    refine ⟨?_, ?_, ?_⟩
    · simp [photo_upload_step_trace, VkApi.ct_or_default]
    · simp [doc_upload_step_trace, VkApi.ct_or_default]
    · simp [video_upload_step_trace, VkApi.ct_or_default]

/-- Oracle used to witness C10: every download yields a 200 response with no
Content-Type header and one content byte. -/
def c10Env : Env where
  download := fun _ => .ok ⟨200, none, none, none, [7]⟩
  vk := fun _ _ => .netErr
  upload := fun _ _ _ _ _ => .netErr

/-- C10 witness: at a concrete header-less 200 response the image fetch
succeeds and the photo upload step declares `application/octet-stream`. -/
theorem c10_missing_content_type_witness :
    VkApi.download_image c10Env "http://host/pic"
      = (.ok ([7], none, "pic"), [Call.get "http://host/pic"])
    ∧ (VkApi.photo_upload_step c10Env "u" "pic" [7] none).2
      = [Call.upload "u" "photo" "pic" [7] "application/octet-stream"] := by
  have h := c10_missing_content_type c10Env "http://host/pic"
    ⟨200, none, none, none, [7]⟩ rfl rfl (by decide) (by decide)
  exact ⟨h.1.trans (by rfl), (h.2.2 "u" "pic" [7]).1⟩

theorem isPrefixOf_weaken (l m s : List Char) (h : l.isPrefixOf m = true) :
    l.isPrefixOf (m ++ s) = true := by
  induction l generalizing m with
  | nil => simp [List.isPrefixOf]
  | cons a as ih =>
      cases m with
      | nil => simp [List.isPrefixOf] at h
      | cons b bs =>
          simp only [List.cons_append, List.isPrefixOf, Bool.and_eq_true] at h ⊢
          exact ⟨h.1, ih bs h.2⟩

theorem infixAux_nil_needle (l : List Char) : infixAux [] l = true := by
  cases l with
  | nil => rfl
  | cons c rest => simp [infixAux, List.isPrefixOf]

theorem infixAux_append_right (n hay suf : List Char) (h : infixAux n hay = true) :
    infixAux n (hay ++ suf) = true := by
  induction hay with
  | nil =>
      have hn : n = [] := by simpa [infixAux, List.isEmpty_iff] using h
      subst hn
      exact infixAux_nil_needle suf
  | cons c rest ih =>
      simp only [infixAux, Bool.or_eq_true] at h ⊢
      rcases h with h1 | h2
      · exact .inl (isPrefixOf_weaken n (c :: rest) suf h1)
      · exact .inr (ih h2)

theorem infixAux_append_left (n pre post : List Char) (h : infixAux n post = true) :
    infixAux n (pre ++ post) = true := by
  induction pre with
  | nil => exact h
  | cons c rest ih =>
      simp only [List.cons_append, infixAux, Bool.or_eq_true]
      exact .inr ih

theorem substr_extend (pre hay suf n : String) (h : substrOf n hay = true) :
    substrOf n (pre ++ hay ++ suf) = true := by
  unfold substrOf at h ⊢
  rw [String.data_append, String.data_append]
  have h1 := infixAux_append_right n.data hay.data suf.data h
  have h2 := infixAux_append_left n.data pre.data (hay.data ++ suf.data) h1
  simpa [List.append_assoc] using h2

theorem isPrefixOf_self (l : List Char) : l.isPrefixOf l = true := by
  have h := isPrefixOf_append_self l []
  rwa [List.append_nil] at h

theorem substr_self (a : String) : substrOf a a = true :=
  infixAux_of_prefix _ _ (isPrefixOf_self _)

theorem substr_joinParts_headOne (sep a : String) (l : List String) :
    substrOf a (joinParts sep (a :: l)) = true := by
  cases l with
  | nil => exact substr_self a
  | cons b m =>
      show substrOf a (a ++ sep ++ joinParts sep (b :: m)) = true
      rw [String.append_assoc]
      exact substr_append_right _ _

theorem summarize_hasHTTP (r : HttpResp) :
    substrOf ("HTTP " ++ toString r.status) (VkApi.summarize_response r) = true := by
  simp only [VkApi.summarize_response]
  split
  · exact substr_joinParts_headOne _ _ _
  · exact substr_joinParts_headOne _ _ _

theorem http_msg_contains (r : HttpResp) :
    substrOf ("HTTP " ++ toString r.status)
      ("VK API HTTP error (" ++ VkApi.summarize_response r ++ ")") = true :=
  substr_extend "VK API HTTP error (" (VkApi.summarize_response r) ")" _
    (summarize_hasHTTP r)

/-- C3: the remote-method invoker (`_post_vk_method` composed with
`_extract_response`, the idiom every orchestrator uses) fails with a
`VkApiError` exactly on: a network failure; an HTTP status of 400 or more —
the message then containing `HTTP <status>` and a body snippet capped near
200 characters; a non-JSON body; or an envelope carrying an `error` object,
whose `error_msg` (default `"VK API error"`) is prefixed with the method
name.  Otherwise it returns the envelope's `response` field, and an envelope
with neither field yields the `"Invalid response from VK API"` error. -/
theorem c3_invoke_method (env : Env) (st : Settings) (method : String)
    (data : List (String × JVal)) :
    (env.vk (VkApi.method_url st method) (VkApi.vk_payload st data) = .netErr →
      VkApi.invoke_method env st method data
        = (.error (.api "Failed to reach VK API"),
           [Call.vk method (VkApi.vk_payload st data)]))
    ∧ (∀ r, env.vk (VkApi.method_url st method) (VkApi.vk_payload st data) = .ok r →
        400 ≤ r.status →
        VkApi.invoke_method env st method data
          = (.error (.api ("VK API HTTP error (" ++ VkApi.summarize_response r ++ ")")),
             [Call.vk method (VkApi.vk_payload st data)])
        ∧ substrOf ("HTTP " ++ toString r.status)
            ("VK API HTTP error (" ++ VkApi.summarize_response r ++ ")") = true)
    ∧ (∀ r, env.vk (VkApi.method_url st method) (VkApi.vk_payload st data) = .ok r →
        r.status < 400 → r.json = none →
        VkApi.invoke_method env st method data
          = (.error (.api ("Invalid response from VK API ("
                ++ VkApi.summarize_response r ++ ")")),
             [Call.vk method (VkApi.vk_payload st data)]))
    ∧ (∀ r j ekvs, env.vk (VkApi.method_url st method) (VkApi.vk_payload st data) = .ok r →
        r.status < 400 → r.json = some j → j.get "error" = some (.obj ekvs) →
        VkApi.invoke_method env st method data
          = (.error (.api (method ++ ": " ++
              (match ekvs.lookup "error_msg" with
               | some v => v.pyStr
               | none => "VK API error"))),
             [Call.vk method (VkApi.vk_payload st data)]))
    ∧ (∀ r j v, env.vk (VkApi.method_url st method) (VkApi.vk_payload st data) = .ok r →
        r.status < 400 → r.json = some j → j.get "error" = none →
        j.get "response" = some v →
        VkApi.invoke_method env st method data
          = (.ok v, [Call.vk method (VkApi.vk_payload st data)]))
    ∧ (∀ r j, env.vk (VkApi.method_url st method) (VkApi.vk_payload st data) = .ok r →
        r.status < 400 → r.json = some j → j.get "error" = none →
        j.get "response" = none →
        VkApi.invoke_method env st method data
          = (.error (.api "Invalid response from VK API"),
             [Call.vk method (VkApi.vk_payload st data)]))
    ∧ (∀ text, (VkApi.snippet_of text).length ≤ 203) := by
  refine ⟨?_, ?_, ?_, ?_, ?_, ?_, fun text => snippet_of_length_le text⟩
  · intro h
    simp [VkApi.invoke_method, VkApi.post_vk_method, h]
  · intro r hr h400
    refine ⟨?_, http_msg_contains r⟩
    simp [VkApi.invoke_method, VkApi.post_vk_method, hr, h400]
  · intro r hr hlt hj
    have h400 : ¬ 400 ≤ r.status := by omega
    simp [VkApi.invoke_method, VkApi.post_vk_method, hr, h400, hj]
  · intro r j ekvs hr hlt hj he
    have h400 : ¬ 400 ≤ r.status := by omega
    simp [VkApi.invoke_method, VkApi.post_vk_method, VkApi.raise_if_vk_error,
      hr, h400, hj, he]
  · intro r j v hr hlt hj he hv
    have h400 : ¬ 400 ≤ r.status := by omega
    simp [VkApi.invoke_method, VkApi.post_vk_method, VkApi.extract_response,
      VkApi.raise_if_vk_error, hr, h400, hj, he, hv]
  · intro r j hr hlt hj he hv
    have h400 : ¬ 400 ≤ r.status := by omega
    simp [VkApi.invoke_method, VkApi.post_vk_method, VkApi.extract_response,
      VkApi.raise_if_vk_error, hr, h400, hj, he, hv]

/-- Oracle used to witness C3: every RPC POST yields an HTTP 500 response
whose body is not valid JSON. -/
def c3Env : Env where
  download := fun _ => .netErr
  vk := fun _ _ => .ok ⟨500, some "text/html", some "Server Error", none, []⟩
  upload := fun _ _ _ _ _ => .netErr

/-- Settings used by the concrete witnesses. -/
def st7 : Settings := ⟨"tok", "at", "7", "5.199", some "-100", "https://x/m"⟩

/-- C3 witness: a remote call answered with HTTP 500 and a non-JSON body
fails with a `VkApiError` whose message contains `HTTP 500`. -/
theorem c3_invoke_method_witness :
    VkApi.invoke_method c3Env st7 "wall.post" []
      = (.error (.api ("VK API HTTP error ("
            ++ VkApi.summarize_response ⟨500, some "text/html", some "Server Error", none, []⟩
            ++ ")")),
         [Call.vk "wall.post" (VkApi.vk_payload st7 [])])
    ∧ substrOf ("HTTP " ++ toString (500 : Nat))
        ("VK API HTTP error ("
          ++ VkApi.summarize_response ⟨500, some "text/html", some "Server Error", none, []⟩
          ++ ")") = true :=
  (c3_invoke_method c3Env st7 "wall.post" []).2.1
    ⟨500, some "text/html", some "Server Error", none, []⟩ rfl (by decide)

/-- C7: with a parsable configured group id, `send_post` without an image
issues exactly one outbound call — `wall.post` carrying the message text,
`owner_id` equal to the negated absolute group id, and `from_group = 1` —
and with an image URL the fetch and wall-photo orchestrator run first (none
of their calls is a send) and their attachment is passed as the
`attachments` parameter of that same single `wall.post` call. -/
theorem c7_send_post (env : Env) (st : Settings) (message : String)
    (s : String) (n : Int)
    (hs : st.vk_group_id = some s) (hne : s ≠ "") (hp : pyInt (pyStrip s) = some n) :
    (VkApi.send_post env st message none).2
      = [Call.vk "wall.post" (VkApi.vk_payload st
          [("owner_id", JVal.num (-(n.natAbs : Int))), ("from_group", JVal.num 1),
           ("message", JVal.str message)])]
    ∧ ∀ (url a : String) (t : List Call), url ≠ "" →
        VkApi.upload_wall_photo env st url = (.ok a, t) →
        (VkApi.send_post env st message (some url)
          = ((VkApi.post_vk_method env st "wall.post"
               [("owner_id", JVal.num (-(n.natAbs : Int))), ("from_group", JVal.num 1),
                ("message", JVal.str message), ("attachments", JVal.str a)]).1,
             t ++ [Call.vk "wall.post" (VkApi.vk_payload st
               [("owner_id", JVal.num (-(n.natAbs : Int))), ("from_group", JVal.num 1),
                ("message", JVal.str message), ("attachments", JVal.str a)])]))
        ∧ t.all (fun c => !sendLike c) = true := by
  have hg : VkApi.get_group_id st = .ok (n.natAbs : Int) := by
    simp [VkApi.get_group_id, hs, hne, hp]
  have hgo : VkApi.get_group_owner_id st = .ok (-(n.natAbs : Int)) := by
    simp [VkApi.get_group_owner_id, hg]
  constructor
  · simp [VkApi.send_post, hgo, post_vk_method_trace]
  · intro url a t hurl hup
    refine ⟨?_, ?_⟩
    · simp [VkApi.send_post, hgo, hurl, hup, post_vk_method_trace]
    · have hn := upload_wall_photo_noSend env st url
      rw [hup] at hn
      exact hn

/-- Oracle used to witness C7: a full successful wall-photo pipeline. -/
def c7Env : Env where
  download := fun _ => .ok ⟨200, some "image/png", none, none, [9]⟩
  vk := fun url _ =>
    if url = "https://x/photos.getWallUploadServer" then
      .ok ⟨200, none, none,
        some (.obj [("response", .obj [("upload_url", .str "https://up/1")])]), []⟩
    else if url = "https://x/photos.saveWallPhoto" then
      .ok ⟨200, none, none,
        some (.obj [("response", .arr [.obj [("owner_id", .num 10), ("id", .num 20)]])]), []⟩
    else if url = "https://x/wall.post" then
      .ok ⟨200, none, none, some (.obj [("response", .num 1)]), []⟩
    else .netErr
  upload := fun url _ _ _ _ =>
    if url = "https://up/1" then
      .ok ⟨200, none, none,
        some (.obj [("server", .num 1), ("photo", .str "p"), ("hash", .str "hh")]), []⟩
    else .netErr

/-- Trace of the witness wall-photo orchestrator run under `c7Env`. -/
def c7WallTrace : List Call :=
  [Call.get "http://h/i.png",
   Call.vk "photos.getWallUploadServer"
     [("access_token", JVal.str "at"), ("v", JVal.str "5.199"),
      ("group_id", JVal.num 100)],
   Call.upload "https://up/1" "photo" "i.png" [9] "image/png",
   Call.vk "photos.saveWallPhoto"
     [("access_token", JVal.str "at"), ("v", JVal.str "5.199"),
      ("group_id", JVal.num 100), ("server", JVal.num 1),
      ("photo", JVal.str "p"), ("hash", JVal.str "hh")]]

/-- C7 witness: under the concrete pipeline oracle, `send_post` without an
image makes exactly the single `wall.post` call, and with an image the
attachment `photo10_20` rides the `attachments` parameter of the one
`wall.post` call after a send-free orchestrator trace. -/
theorem c7_send_post_witness :
    (VkApi.send_post c7Env st7 "hello" none).2
      = [Call.vk "wall.post" (VkApi.vk_payload st7
          [("owner_id", JVal.num (-100)), ("from_group", JVal.num 1),
           ("message", JVal.str "hello")])]
    ∧ (VkApi.send_post c7Env st7 "hello" (some "http://h/i.png")
        = ((VkApi.post_vk_method c7Env st7 "wall.post"
             [("owner_id", JVal.num (-100)), ("from_group", JVal.num 1),
              ("message", JVal.str "hello"), ("attachments", JVal.str "photo10_20")]).1,
           c7WallTrace ++ [Call.vk "wall.post" (VkApi.vk_payload st7
             [("owner_id", JVal.num (-100)), ("from_group", JVal.num 1),
              ("message", JVal.str "hello"), ("attachments", JVal.str "photo10_20")])]))
    ∧ c7WallTrace.all (fun c => !sendLike c) = true := by
  have h := c7_send_post c7Env st7 "hello" "-100" (-100) rfl (by decide) (by decide)
  have h2 := h.2 "http://h/i.png" "photo10_20" c7WallTrace (by decide) (by rfl)
  exact ⟨h.1, h2.1, h2.2⟩

/-- Oracle used for C5: the download is answered 200 with content type
`text/html` and a non-empty body; every other interaction fails at the
transport. -/
def c5Env : Env where
  download := fun _ => .ok ⟨200, some "text/html", none, none, [1]⟩
  vk := fun _ _ => .netErr
  upload := fun _ _ _ _ _ => .netErr

/-- C5 counterexample: a fetch whose content type does not match fails with
`Err.api` — the very `VkApiError` kind that carries every remote failure
(second conjunct) — so the failure kind is not distinct from the
remote-error kind; the program has no separate validation-error kind. -/
theorem c5_counterexample :
    (VkApi.download_image c5Env "http://host/pic").1
      = .error (.api "URL does not point to an image (content-type text/html)")
    ∧ (VkApi.invoke_method c5Env st7 "messages.send" []).1
        = .error (.api "Failed to reach VK API") := ⟨rfl, rfl⟩

/-- C5 (amended): every failing image/video fetch — transport error, HTTP
status of 400 or more, rejected content-type prefix, or empty body — fails
with the program's single remote-error kind `VkApiError` (not a distinct
validation kind), its trace is the lone GET, and the facades issue zero
further calls (in particular zero uploads) after a failed fetch. -/
theorem c5_fetch_failures (env : Env) (st : Settings) (url : String) :
    (env.download url = .netErr →
      VkApi.download_image env url
        = (.error (.api "Failed to download image"), [Call.get url])
      ∧ VkApi.download_video env url
        = (.error (.api "Failed to download video"), [Call.get url]))
    ∧ (∀ r, env.download url = .ok r → 400 ≤ r.status →
        VkApi.download_image env url
          = (.error (.api ("Failed to download image ("
              ++ VkApi.summarize_response r ++ ")")), [Call.get url])
        ∧ VkApi.download_video env url
          = (.error (.api ("Failed to download video ("
              ++ VkApi.summarize_response r ++ ")")), [Call.get url]))
    ∧ (∀ r c, env.download url = .ok r → r.status < 400 → r.contentType = some c →
        VkApi.image_ct_bad (some c) = true →
        VkApi.download_image env url
          = (.error (.api ("URL does not point to an image (content-type "
              ++ c ++ ")")), [Call.get url]))
    ∧ (∀ r c, env.download url = .ok r → r.status < 400 → r.contentType = some c →
        VkApi.video_ct_bad (some c) = true →
        VkApi.download_video env url
          = (.error (.api ("URL does not point to a video (content-type "
              ++ c ++ ")")), [Call.get url]))
    ∧ (∀ r, env.download url = .ok r → r.status < 400 →
        VkApi.image_ct_bad r.contentType = false → r.content = [] →
        VkApi.download_image env url
          = (.error (.api "Downloaded image is empty"), [Call.get url]))
    ∧ (∀ r, env.download url = .ok r → r.status < 400 →
        VkApi.video_ct_bad r.contentType = false → r.content = [] →
        VkApi.download_video env url
          = (.error (.api "Downloaded video is empty"), [Call.get url]))
    ∧ (∀ e, (VkApi.download_image env url).1 = .error e →
        VkApi.send_image_url env st url = (.error e, [Call.get url]))
    ∧ (∀ e, (VkApi.download_video env url).1 = .error e →
        VkApi.send_video_url env st url = (.error e, [Call.get url])) := by
  refine ⟨?_, ?_, ?_, ?_, ?_, ?_, ?_, ?_⟩
  · intro h
    exact ⟨by simp [VkApi.download_image, h], by simp [VkApi.download_video, h]⟩
  · intro r hr h400
    exact ⟨by simp [VkApi.download_image, hr, h400],
           by simp [VkApi.download_video, hr, h400]⟩
  · intro r c hr hlt hct hbad
    have h400 : ¬ 400 ≤ r.status := by omega
    simp [VkApi.download_image, hr, h400, hct, hbad]
  · intro r c hr hlt hct hbad
    have h400 : ¬ 400 ≤ r.status := by omega
    simp [VkApi.download_video, hr, h400, hct, hbad]
  · intro r hr hlt hok hemp
    have h400 : ¬ 400 ≤ r.status := by omega
    simp [VkApi.download_image, hr, h400, hok, hemp]
  · intro r hr hlt hok hemp
    have h400 : ¬ 400 ≤ r.status := by omega
    simp [VkApi.download_video, hr, h400, hok, hemp]
  · intro e he
    have ht := download_image_trace env url
    unfold VkApi.send_image_url
    rcases hd : VkApi.download_image env url with ⟨r1, t1⟩
    rw [hd] at he ht
    simp only [] at he ht
    subst he
    subst ht
    rfl
  · intro e he
    have ht := download_video_trace env url
    unfold VkApi.send_video_url
    rcases hd : VkApi.download_video env url with ⟨r1, t1⟩
    rw [hd] at he ht
    simp only [] at he ht
    subst he
    subst ht
    rfl

/-- C5 witness: the concrete `text/html` fetch fails with the `VkApiError`
kind, issues only the GET, and the image facade stops with the same error
and no upload call. -/
theorem c5_fetch_failures_witness :
    VkApi.download_image c5Env "http://host/pic"
      = (.error (.api "URL does not point to an image (content-type text/html)"),
         [Call.get "http://host/pic"])
    ∧ VkApi.send_image_url c5Env st7 "http://host/pic"
        = (.error (.api "URL does not point to an image (content-type text/html)"),
           [Call.get "http://host/pic"]) := by
  have h := c5_fetch_failures c5Env st7 "http://host/pic"
  refine ⟨?_, ?_⟩
  · exact h.2.2.1 ⟨200, some "text/html", none, none, [1]⟩ "text/html" rfl
      (by decide) rfl (by decide)
  · exact h.2.2.2.2.2.2.1 _ (by rfl)

/-- C2: in all four orchestrators a save-response whose owner id or item id
is missing (Python `None`) fails with the `VkApiError` "Invalid … data"
error at the extraction step, before any attachment exists, and the
enclosing flow stops with that error having issued no `messages.send` or
`wall.post` call. -/
theorem c2_missing_ids :
    (∀ (sd sr pinfo : JVal) (rest : List JVal),
        VkApi.extract_response sd = .ok sr → sr = JVal.arr (pinfo :: rest) →
        (optIsNone (pinfo.get "owner_id") || optIsNone (pinfo.get "id")) = true →
        VkApi.photo_from_save sd = .error (.api "Invalid photo data from VK API"))
    ∧ (∀ sr : JVal,
        (optIsNone (sr.get "owner_id")
          || optIsNone (pyOr (sr.get "video_id") (sr.get "vid"))) = true →
        VkApi.video_from_save sr = .error (.api "Invalid video data from VK API"))
    ∧ (∀ dinfo : JVal,
        (optIsNone (dinfo.get "owner_id")
          || optIsNone (pyOr (dinfo.get "id") (dinfo.get "doc_id"))) = true →
        VkApi.doc_attachment_of dinfo
          = .error (.api "Invalid document data from VK API"))
    ∧ (∀ (env : Env) (st : Settings) (msg url : String) (g : Int) (e : Err)
          (t : List Call),
        VkApi.get_group_owner_id st = .ok g → url ≠ "" →
        VkApi.upload_wall_photo env st url = (.error e, t) →
        VkApi.send_post env st msg (some url) = (.error e, t)
        ∧ t.all (fun c => !sendLike c) = true)
    ∧ (∀ (env : Env) (st : Settings) (url : String)
          (dl : List Nat × Option String × String) (t1 : List Call)
          (up2 : JVal) (t2 : List Call) (uurl : String) (up : JVal) (t3 : List Call)
          (sd : JVal) (t4 : List Call) (e : Err),
        VkApi.download_image env url = (.ok dl, t1) →
        VkApi.post_vk_method env st "photos.getMessagesUploadServer"
            [("peer_id", JVal.str st.vk_peer_id)] = (.ok up2, t2) →
        VkApi.upload_url_of up2 = .ok uurl →
        VkApi.photo_upload_step env uurl dl.2.2 dl.1 dl.2.1 = (.ok up, t3) →
        VkApi.post_vk_method env st "photos.saveMessagesPhoto"
            [("server", (up.get "server").getD JVal.null),
             ("photo", (up.get "photo").getD JVal.null),
             ("hash", (up.get "hash").getD JVal.null)] = (.ok sd, t4) →
        VkApi.photo_from_save sd = .error e →
        VkApi.send_image_url env st url = (.error e, t1 ++ t2 ++ t3 ++ t4)
        ∧ (t1 ++ t2 ++ t3 ++ t4).all (fun c => !sendLike c) = true)
    ∧ (∀ (env : Env) (st : Settings) (b : List Nat) (ct : Option String)
          (fn : String) (sd sr : JVal) (t1 : List Call) (uurl : String)
          (t2 : List Call) (e : Err),
        VkApi.post_vk_method env st "video.save"
            [("name", JVal.str fn), ("is_private", JVal.num 1)] = (.ok sd, t1) →
        VkApi.extract_response sd = .ok sr →
        VkApi.url_value_of sr = .ok uurl →
        VkApi.video_upload_step env uurl fn b ct = (.ok (), t2) →
        VkApi.video_from_save sr = .error e →
        VkApi.send_video_via_save env st b ct fn = (.error e, t1 ++ t2)
        ∧ (t1 ++ t2).all (fun c => !sendLike c) = true)
    ∧ (∀ (env : Env) (st : Settings) (b : List Nat) (ct : Option String)
          (fn : String) (ud : JVal) (t1 : List Call) (uurl : String) (tok : JVal)
          (t2 : List Call) (sd : JVal) (t3 : List Call) (sr dinfo : JVal) (e : Err),
        VkApi.post_vk_method env st "docs.getMessagesUploadServer"
            [("peer_id", JVal.str st.vk_peer_id), ("type", JVal.str "doc")]
          = (.ok ud, t1) →
        VkApi.upload_url_of ud = .ok uurl →
        VkApi.doc_upload_step env uurl fn b ct = (.ok tok, t2) →
        VkApi.post_vk_method env st "docs.save"
            [("file", tok), ("title", JVal.str fn)] = (.ok sd, t3) →
        VkApi.extract_response sd = .ok sr →
        VkApi.extract_doc_info sr = .ok dinfo →
        VkApi.doc_attachment_of dinfo = .error e →
        VkApi.send_video_as_document env st b ct fn = (.error e, t1 ++ t2 ++ t3)
        ∧ (t1 ++ t2 ++ t3).all (fun c => !sendLike c) = true) := by
  refine ⟨?_, ?_, ?_, ?_, ?_, ?_, ?_⟩
  · intro sd sr pinfo rest hex hsr hmiss
    subst hsr
    simp [VkApi.photo_from_save, hex, JVal.truthy, hmiss]
  · intro sr hmiss
    simp [VkApi.video_from_save, hmiss]
  · intro dinfo hmiss
    simp [VkApi.doc_attachment_of, hmiss]
  · intro env st msg url g e t hg hurl hup
    refine ⟨by simp [VkApi.send_post, hg, hurl, hup], ?_⟩
    have hn := upload_wall_photo_noSend env st url
    rw [hup] at hn
    exact hn
  · intro env st url dl t1 up2 t2 uurl up t3 sd t4 e hdl hB hu hC hD hps
    have h1 : t1 = [Call.get url] := by
      have h := download_image_trace env url
      rw [hdl] at h
      exact h
    have h2 : t2 = [Call.vk "photos.getMessagesUploadServer"
        (VkApi.vk_payload st [("peer_id", JVal.str st.vk_peer_id)])] := by
      have h := post_vk_method_trace env st "photos.getMessagesUploadServer"
        [("peer_id", JVal.str st.vk_peer_id)]
      rw [hB] at h
      exact h
    have h3 : t3 = [Call.upload uurl "photo" dl.2.2 dl.1
        (VkApi.ct_or_default dl.2.1)] := by
      have h := photo_upload_step_trace env uurl dl.2.2 dl.1 dl.2.1
      rw [hC] at h
      exact h
    have h4 : t4 = [Call.vk "photos.saveMessagesPhoto"
        (VkApi.vk_payload st
          [("server", (up.get "server").getD JVal.null),
           ("photo", (up.get "photo").getD JVal.null),
           ("hash", (up.get "hash").getD JVal.null)])] := by
      have h := post_vk_method_trace env st "photos.saveMessagesPhoto"
        [("server", (up.get "server").getD JVal.null),
         ("photo", (up.get "photo").getD JVal.null),
         ("hash", (up.get "hash").getD JVal.null)]
      rw [hD] at h
      exact h
    constructor
    · simp [VkApi.send_image_url, hdl, hB, hu, hC, hD, hps, List.append_assoc]
    · subst h1; subst h2; subst h3; subst h4
      simp [sendLike]
  · intro env st b ct fn sd sr t1 uurl t2 e hA hex huv hup hvs
    have h1 : t1 = [Call.vk "video.save"
        (VkApi.vk_payload st [("name", JVal.str fn), ("is_private", JVal.num 1)])] := by
      have h := post_vk_method_trace env st "video.save"
        [("name", JVal.str fn), ("is_private", JVal.num 1)]
      rw [hA] at h
      exact h
    have h2 : t2 = [Call.upload uurl "video_file" fn b (VkApi.ct_or_default ct)] := by
      have h := video_upload_step_trace env uurl fn b ct
      rw [hup] at h
      exact h
    constructor
    · simp [VkApi.send_video_via_save, hA, hex, huv, hup, hvs, List.append_assoc]
    · subst h1; subst h2
      simp [sendLike]
  · intro env st b ct fn ud t1 uurl tok t2 sd t3 sr dinfo e hA hu hB hC hex hdi hda
    have h1 : t1 = [Call.vk "docs.getMessagesUploadServer"
        (VkApi.vk_payload st
          [("peer_id", JVal.str st.vk_peer_id), ("type", JVal.str "doc")])] := by
      have h := post_vk_method_trace env st "docs.getMessagesUploadServer"
        [("peer_id", JVal.str st.vk_peer_id), ("type", JVal.str "doc")]
      rw [hA] at h
      exact h
    have h2 : t2 = [Call.upload uurl "file" fn b (VkApi.ct_or_default ct)] := by
      have h := doc_upload_step_trace env uurl fn b ct
      rw [hB] at h
      exact h
    have h3 : t3 = [Call.vk "docs.save"
        (VkApi.vk_payload st [("file", tok), ("title", JVal.str fn)])] := by
      have h := post_vk_method_trace env st "docs.save"
        [("file", tok), ("title", JVal.str fn)]
      rw [hC] at h
      exact h
    constructor
    · simp [VkApi.send_video_as_document, hA, hu, hB, hC, hex, hdi, hda,
        List.append_assoc]
    · subst h1; subst h2; subst h3
      simp [sendLike]

/-- Oracle used to witness C2: the wall-photo pipeline succeeds until the
save response, whose photo carries an `owner_id` but no `id`. -/
def c2Env : Env where
  download := fun _ => .ok ⟨200, some "image/png", none, none, [9]⟩
  vk := fun url _ =>
    if url = "https://x/photos.getWallUploadServer" then
      .ok ⟨200, none, none,
        some (.obj [("response", .obj [("upload_url", .str "https://up/1")])]), []⟩
    else if url = "https://x/photos.saveWallPhoto" then
      .ok ⟨200, none, none,
        some (.obj [("response", .arr [.obj [("owner_id", .num 10)]])]), []⟩
    else .netErr
  upload := fun url _ _ _ _ =>
    if url = "https://up/1" then
      .ok ⟨200, none, none,
        some (.obj [("server", .num 1), ("photo", .str "p"), ("hash", .str "hh")]), []⟩
    else .netErr

/-- Trace of the witness wall-photo orchestrator run under `c2Env`. -/
def c2WallTrace : List Call :=
  [Call.get "http://h/i.png",
   Call.vk "photos.getWallUploadServer"
     [("access_token", JVal.str "at"), ("v", JVal.str "5.199"),
      ("group_id", JVal.num 100)],
   Call.upload "https://up/1" "photo" "i.png" [9] "image/png",
   Call.vk "photos.saveWallPhoto"
     [("access_token", JVal.str "at"), ("v", JVal.str "5.199"),
      ("group_id", JVal.num 100), ("server", JVal.num 1),
      ("photo", JVal.str "p"), ("hash", JVal.str "hh")]]

/-- C2 witness: concrete save responses missing an identifier fail with the
"Invalid … data" error in the photo, video, and document extractors, and a
`send_post` pipeline reaching such a response stops with that error having
issued no send call. -/
theorem c2_missing_ids_witness :
    VkApi.photo_from_save (.obj [("response", .arr [.obj [("owner_id", .num 10)]])])
      = .error (.api "Invalid photo data from VK API")
    ∧ VkApi.video_from_save (.obj [("owner_id", .num 1)])
      = .error (.api "Invalid video data from VK API")
    ∧ VkApi.doc_attachment_of (.obj [("id", .num 5)])
      = .error (.api "Invalid document data from VK API")
    ∧ (VkApi.send_post c2Env st7 "hello" (some "http://h/i.png")
        = (.error (.api "Invalid photo data from VK API"), c2WallTrace)
      ∧ c2WallTrace.all (fun c => !sendLike c) = true) := by
  refine ⟨?_, ?_, ?_, ?_⟩
  · exact c2_missing_ids.1 _ (.arr [.obj [("owner_id", .num 10)]])
      (.obj [("owner_id", .num 10)]) [] rfl rfl (by decide)
  · exact c2_missing_ids.2.1 _ (by decide)
  · exact c2_missing_ids.2.2.1 _ (by decide)
  · exact c2_missing_ids.2.2.2.1 c2Env st7 "hello" "http://h/i.png" (-100)
      (.api "Invalid photo data from VK API") c2WallTrace rfl (by decide) (by rfl)

/-- C1: when the video download succeeds and the message-video orchestrator
fails, `send_video_url` swallows the error and reruns the remaining flow
through the document orchestrator exactly when the failure is a `VkApiError`
whose lowercased message contains `"group auth"`; any other error propagates
unchanged; and every `messages.send` the fallback issues carries an
attachment starting with `doc`, never one starting with `video`. -/
theorem c1_send_video_fallback (env : Env) (st : Settings) (url : String)
    (dl : List Nat × Option String × String) (t0 : List Call) (e : Err)
    (t1 : List Call)
    (hdl : VkApi.download_video env url = (.ok dl, t0))
    (hv : VkApi.send_video_via_save env st dl.1 dl.2.1 dl.2.2 = (.error e, t1)) :
    ((∃ msg, e = .api msg ∧ substrOf "group auth" (pyLower msg) = true) →
      VkApi.send_video_url env st url
        = ((VkApi.send_video_as_document env st dl.1 dl.2.1 dl.2.2).1,
           t0 ++ t1 ++ (VkApi.send_video_as_document env st dl.1 dl.2.1 dl.2.2).2))
    ∧ ((∀ msg, e = .api msg → substrOf "group auth" (pyLower msg) = false) →
      VkApi.send_video_url env st url = (.error e, t0 ++ t1))
    ∧ (∀ payload, Call.vk "messages.send" payload
          ∈ (VkApi.send_video_as_document env st dl.1 dl.2.1 dl.2.2).2 →
        ∃ a : String, payload.lookup "attachment" = some (JVal.str a)
          ∧ (∃ rest, a = "doc" ++ rest) ∧ ∀ rest2, a ≠ "video" ++ rest2) := by
  refine ⟨?_, ?_,
    fun payload hmem => doc_send_attachment env st dl.1 dl.2.1 dl.2.2 payload hmem⟩
  · rintro ⟨msg, rfl, hsub⟩
    rcases hdoc : VkApi.send_video_as_document env st dl.1 dl.2.1 dl.2.2 with ⟨r2, t2⟩
    simp [VkApi.send_video_url, hdl, hv, hsub, hdoc, List.append_assoc]
  · intro hno
    cases e with
    | api msg =>
        have hsub := hno msg rfl
        simp [VkApi.send_video_url, hdl, hv, hsub]
    | config msg => simp [VkApi.send_video_url, hdl, hv]
    | crash msg => simp [VkApi.send_video_url, hdl, hv]

/-- Oracle used to witness C1: `video.save` is answered with the platform
error `Group authorization failed`, and the document pipeline succeeds. -/
def c1Env : Env where
  download := fun _ => .ok ⟨200, some "video/mp4", none, none, [3]⟩
  vk := fun url _ =>
    if url = "https://x/video.save" then
      .ok ⟨200, none, none,
        some (.obj [("error", .obj [("error_msg", .str "Group authorization failed")])]), []⟩
    else if url = "https://x/docs.getMessagesUploadServer" then
      .ok ⟨200, none, none,
        some (.obj [("response", .obj [("upload_url", .str "https://up/d")])]), []⟩
    else if url = "https://x/docs.save" then
      .ok ⟨200, none, none,
        some (.obj [("response", .obj [("doc",
          .obj [("owner_id", .num 3), ("id", .num 4)])])]), []⟩
    else if url = "https://x/messages.send" then
      .ok ⟨200, none, none, some (.obj [("response", .num 77)]), []⟩
    else .netErr
  upload := fun url _ _ _ _ =>
    if url = "https://up/d" then
      .ok ⟨200, none, none, some (.obj [("file", .str "ftok")]), []⟩
    else .netErr

/-- The `messages.send` payload the C1 witness fallback issues. -/
def c1SendPayload : List (String × JVal) :=
  [("access_token", JVal.str "at"), ("v", JVal.str "5.199"),
   ("peer_id", JVal.str "7"), ("attachment", JVal.str "doc3_4"),
   ("random_id", JVal.num 0)]

/-- C1 witness: with `video.save` failing as
`"video.save: Group authorization failed"`, the facade completes through the
document orchestrator — the whole-flow trace is the download and failed
`video.save` followed by the document pipeline — and the one `messages.send`
issued carries the attachment `doc3_4`, which starts with `doc` and not with
`video`. -/
theorem c1_send_video_fallback_witness :
    VkApi.send_video_url c1Env st7 "http://h/v.mp4"
      = ((VkApi.send_video_as_document c1Env st7 [3] (some "video/mp4") "v.mp4").1,
         [Call.get "http://h/v.mp4",
          Call.vk "video.save"
            [("access_token", JVal.str "at"), ("v", JVal.str "5.199"),
             ("name", JVal.str "v.mp4"), ("is_private", JVal.num 1)]]
           ++ (VkApi.send_video_as_document c1Env st7 [3] (some "video/mp4") "v.mp4").2)
    ∧ ∃ a : String, c1SendPayload.lookup "attachment" = some (JVal.str a)
        ∧ (∃ rest, a = "doc" ++ rest) ∧ ∀ rest2, a ≠ "video" ++ rest2 := by
  have h := c1_send_video_fallback c1Env st7 "http://h/v.mp4"
    ([3], some "video/mp4", "v.mp4")
    [Call.get "http://h/v.mp4"]
    (.api "video.save: Group authorization failed")
    [Call.vk "video.save"
      [("access_token", JVal.str "at"), ("v", JVal.str "5.199"),
       ("name", JVal.str "v.mp4"), ("is_private", JVal.num 1)]]
    rfl rfl
  have hmem : Call.vk "messages.send" c1SendPayload
      ∈ (VkApi.send_video_as_document c1Env st7 [3] (some "video/mp4") "v.mp4").2 := by
    have ht : (VkApi.send_video_as_document c1Env st7 [3] (some "video/mp4") "v.mp4").2
        = [Call.vk "docs.getMessagesUploadServer"
             [("access_token", JVal.str "at"), ("v", JVal.str "5.199"),
              ("peer_id", JVal.str "7"), ("type", JVal.str "doc")],
           Call.upload "https://up/d" "file" "v.mp4" [3] "video/mp4",
           Call.vk "docs.save"
             [("access_token", JVal.str "at"), ("v", JVal.str "5.199"),
              ("file", JVal.str "ftok"), ("title", JVal.str "v.mp4")],
           Call.vk "messages.send" c1SendPayload] := rfl
    rw [ht]
    exact List.mem_cons_of_mem _ (List.mem_cons_of_mem _
      (List.mem_cons_of_mem _ (List.mem_singleton.mpr rfl)))
  refine ⟨?_, h.2.2 c1SendPayload hmem⟩
  exact h.1 ⟨"video.save: Group authorization failed", rfl, by decide⟩
